import Mathlib

/-!
Shallow embedding of the two scripts of Virtuoso-AI
(`1_edit_image.py` and `1_gen_video.py`).

Both scripts share one control flow, embedded here as `runScript`:

1. `submit`: POST the payload; on HTTP 200 parse `task_id`, `status` and
   (for the model) the `generated` url list out of `response.json()["data"]`;
   on any other status code print an error and fall through.
2. `pollLoop`: the `while status != "COMPLETED"` loop.  Each iteration:
   `time.sleep(2)`; GET the status url (taking some latency); on HTTP 200
   replace `status` (and the last response, hence `generated`) with the
   returned one, otherwise print the error and `time.sleep(2)` again; then
   check `time.time() - start_time > timeout` and, if exceeded, set
   `generation_ok = False` and break.
3. Fetch phase (only when `generation_ok`): select a url from the last
   response's `generated` list — `1_edit_image.py` filters for the
   `https://` prefix and indexes `[0]`, `1_gen_video.py` indexes `[0]`
   directly — GET it, and on HTTP 200 write the whole `content` to the
   destination file in a single `f.write`.

Wall-clock time is modelled in whole seconds as `Nat`; the environment
(the remote API) is modelled by the submit response, a latency for the
submit call, a finite script of poll-tick observations (each a transport
result plus the GET latency), and the download response.  Python's
uncaught exceptions (missing JSON fields, `IndexError` on an empty
selection) are explicit `RunResult` constructors, since they are the only
paths on which the process exits non-zero.
-/

namespace VirtuosoAI

/-- The `data` object of a submit response body: `task_id`, `status`, and
the `generated` url list (empty when the provider omits it). -/
structure TaskData where
  task_id : String
  status : String
  generated : List String
deriving DecidableEq

/-- The `data` object of a status-poll response body. -/
structure StatusData where
  status : String
  generated : List String
deriving DecidableEq

/-- An HTTP response: its status code and its parsed body (`none` when the
body does not parse or lacks the expected fields). -/
structure HttpResponse (α : Type) where
  statusCode : Nat
  body : Option α
deriving DecidableEq

/-- Transport result of one status GET during polling: `ok` with the
parsed `data` object on HTTP 200, `err` with the status code otherwise. -/
inductive PollResult where
  | ok (d : StatusData)
  | err (code : Nat)
deriving DecidableEq

/-- One poll tick as offered by the environment: the transport result of
the GET and the request latency in seconds. -/
structure TickObs where
  resp : PollResult
  latency : Nat
deriving DecidableEq

/-- Outcome of the polling loop.  `completed` records the number of status
GETs issued, the elapsed time and the `generated` list of the response
that reported `COMPLETED` (the submit response when zero polls ran);
`timedOut` is the `generation_ok = False` break; `exhausted` means the
modelled environment ran out of ticks while the real loop would continue. -/
inductive PollOutcome where
  | completed (polls t : Nat) (generated : List String)
  | timedOut (polls t : Nat) (lastStatus : String)
  | exhausted (polls t : Nat) (lastStatus : String)
deriving DecidableEq

/-- The `while status != "COMPLETED"` loop of both scripts.  `status` and
`generated` come from the last HTTP-200 response (initially the submit
response); `t` is elapsed wall-clock seconds since `start_time`; `polls`
counts status GETs already issued.  Per iteration: guard; `sleep(interval)`;
GET (latency); on 200 adopt the returned status/urls, on error sleep
`interval` again leaving both unchanged; then break with failure if
`t > timeout` (strict, as in `time.time() - start_time > timeout`). -/
def pollLoop (timeout interval : Nat) (status : String) (generated : List String)
    (t polls : Nat) : List TickObs → PollOutcome
  | [] =>
    if status = "COMPLETED" then .completed polls t generated
    else .exhausted polls t status
  | ob :: rest =>
    if status = "COMPLETED" then .completed polls t generated
    else
      match ob.resp with
      | .ok d =>
        let t1 := t + interval + ob.latency
        if timeout < t1 then .timedOut (polls + 1) t1 d.status
        else pollLoop timeout interval d.status d.generated t1 (polls + 1) rest
      | .err _ =>
        let t1 := t + interval + ob.latency + interval
        if timeout < t1 then .timedOut (polls + 1) t1 status
        else pollLoop timeout interval status generated t1 (polls + 1) rest

/-- A job as the scripts hold it right after submission: the `task_id`,
the current status, and the urls of the submit response. -/
structure Job where
  id : String
  status : String
  generated : List String
deriving DecidableEq

/-- Submission failure: non-200 transport (the script prints the code and
provider message), or HTTP 200 whose body lacks the expected fields, which
raises an uncaught `KeyError` in the script. -/
inductive SubmitError where
  | transport (code : Nat)
  | parseCrash
deriving DecidableEq

/-- The submit-response handling of both scripts: on HTTP 200 read
`task_id` and `status` from the body (crashing if absent), otherwise take
the error branch carrying the status code. -/
def submit (resp : HttpResponse TaskData) : Except SubmitError Job :=
  if resp.statusCode = 200 then
    match resp.body with
    | some d => .ok ⟨d.task_id, d.status, d.generated⟩
    | none => .error .parseCrash
  else .error (.transport resp.statusCode)

/-- Python's `u.startswith("https://")`: the characters `https://` lead
the character sequence of `u`.  Stated on the underlying character lists
so that it evaluates by kernel reduction. -/
def startsWithHttps (u : String) : Bool :=
  "https://".data.isPrefixOf u.data

/-- Url selection of `1_edit_image.py`:
`[u for u in generated if u.startswith("https://")][0]`, i.e. the first
`https://`-prefixed entry; `none` models the `IndexError` when no entry
matches. -/
def selectImgUrl (generated : List String) : Option String :=
  (generated.filter startsWithHttps).head?

/-- Url selection of `1_gen_video.py`: `generated[0]`, the first entry
unconditionally; `none` models the `IndexError` on an empty list. -/
def selectVideoUrl (generated : List String) : Option String :=
  generated.head?

/-- The artifact GET response: status code and raw byte content. -/
structure Download where
  statusCode : Nat
  content : List Nat
deriving DecidableEq

/-- Final outcome of one run of a script.  `fileWritten` carries the full
byte content written to the single destination file; `parseCrash`,
`submitMsgCrash` and `noValidUrl` are the uncaught exceptions
(`submitMsgCrash` is the non-200 submit branch evaluating
`response.json()["message"]` on an error body that is not JSON or lacks
the field); everything else is a printed error message followed by normal
interpreter exit. -/
inductive RunResult where
  | submitFailed (code : Nat)
  | parseCrash
  | submitMsgCrash
  | timedOut
  | scriptExhausted
  | noValidUrl
  | downloadFailed (code : Nat)
  | fileWritten (content : List Nat)
deriving DecidableEq

/-- The download block of both scripts: select a url from the `generated`
list of the last response (uncaught `IndexError` when selection fails);
GET it; on HTTP 200 open the destination file and write the whole content
in one call, otherwise print the error and write nothing. -/
def fetchPhase (generated : List String) (dl : Download)
    (select : List String → Option String) : RunResult :=
  match select generated with
  | none => .noValidUrl
  | some _ =>
    if dl.statusCode = 200 then .fileWritten dl.content
    else .downloadFailed dl.statusCode

/-- One whole run of a script: submit, poll until `COMPLETED` or timeout,
then fetch.  `subLatency` is the elapsed time at loop entry (the POST's
latency, since `start_time` is taken just before the POST); `script` is
the environment's sequence of poll ticks; `select` is the url selection of
the particular script. -/
def runScript (timeout interval : Nat) (sub : HttpResponse TaskData)
    (subLatency : Nat) (script : List TickObs) (dl : Download)
    (select : List String → Option String) : RunResult :=
  match submit sub with
  | .error (.transport code) => .submitFailed code
  | .error .parseCrash => .parseCrash
  | .ok job =>
    match pollLoop timeout interval job.status job.generated subLatency 0 script with
    | .completed _ _ generated => fetchPhase generated dl select
    | .timedOut _ _ _ => .timedOut
    | .exhausted _ _ _ => .scriptExhausted

/-- Process exit code of a run: Python exits 0 after every printed error
message; only the uncaught exceptions exit non-zero — `KeyError` on a 200
body without the expected fields, the non-200 submit branch's
`response.json()["message"]` raising on an unusable error body
(`1_edit_image.py:68`, `1_gen_video.py:72`), and `IndexError` on url
selection. -/
def exitCode : RunResult → Nat
  | .parseCrash => 1
  | .submitMsgCrash => 1
  | .noValidUrl => 1
  | _ => 0

/-- One whole run with the non-200 submit branch modelled in full: that
branch's print statement interpolates `response.json()["message"]`
(`1_edit_image.py:68`, `1_gen_video.py:72`), so `errMessage = none` — an
error body that is not JSON or lacks `message` — raises before anything is
printed and kills the process, while `errMessage = some m` prints the
descriptive error and falls off the end of the script.  All other paths
are those of `runScript`. -/
def runScriptFull (timeout interval : Nat) (sub : HttpResponse TaskData)
    (errMessage : Option String) (subLat : Nat) (script : List TickObs)
    (dl : Download) (sel : List String → Option String) : RunResult :=
  match submit sub with
  | .error (.transport code) =>
    match errMessage with
    | some _ => .submitFailed code
    | none => .submitMsgCrash
  | .error .parseCrash => .parseCrash
  | .ok job =>
    match pollLoop timeout interval job.status job.generated subLat 0 script with
    | .completed _ _ generated => fetchPhase generated dl sel
    | .timedOut _ _ _ => .timedOut
    | .exhausted _ _ _ => .scriptExhausted

/-- Whether a poll tick's transport result is an HTTP-200 response whose
status is the terminal-success sentinel `COMPLETED`. -/
def isCompletedTick (ob : TickObs) : Bool :=
  match ob.resp with
  | .ok d => d.status == "COMPLETED"
  | .err _ => false

/-- Wall-clock seconds one poll tick consumes: the loop-top sleep plus the
GET's latency, plus the extra error-branch sleep on a transport error. -/
def tickCost (interval : Nat) (ob : TickObs) : Nat :=
  match ob.resp with
  | .ok _ => interval + ob.latency
  | .err _ => interval + ob.latency + interval

/-- Total wall-clock seconds a script of poll ticks consumes. -/
def scriptCost (interval : Nat) (script : List TickObs) : Nat :=
  (script.map (tickCost interval)).sum

/-- Whether a poll tick's transport result is a non-200 response. -/
def isErrTick (ob : TickObs) : Bool :=
  match ob.resp with
  | .ok _ => false
  | .err _ => true

/-- Number of status GETs recorded in a poll outcome. -/
def pollsOf : PollOutcome → Nat
  | .completed p _ _ => p
  | .timedOut p _ _ => p
  | .exhausted p _ _ => p

theorem scriptCost_nil (interval : Nat) : scriptCost interval [] = 0 := rfl

theorem scriptCost_cons (interval : Nat) (ob : TickObs) (rest : List TickObs) :
    scriptCost interval (ob :: rest) = tickCost interval ob + scriptCost interval rest := by
  simp [scriptCost]

/-- Entering the loop with status `COMPLETED` skips it entirely: no tick is
consumed, no time passes, the url list is the one already in hand. -/
theorem pollLoop_completed_entry (timeout interval : Nat) (generated : List String)
    (t polls : Nat) (script : List TickObs) :
    pollLoop timeout interval "COMPLETED" generated t polls script =
      .completed polls t generated := by
  cases script <;> simp [pollLoop]

/-- The poll counter never decreases along the loop. -/
theorem pollsOf_pollLoop_ge (timeout interval : Nat) :
    ∀ (script : List TickObs) (s : String) (gen : List String) (t polls : Nat),
      polls ≤ pollsOf (pollLoop timeout interval s gen t polls script) := by
  intro script
  induction script with
  | nil =>
    intro s gen t polls
    by_cases h : s = "COMPLETED" <;> simp [pollLoop, h, pollsOf]
  | cons ob rest ih =>
    intro s gen t polls
    by_cases h : s = "COMPLETED"
    · simp [pollLoop, h, pollsOf]
    · obtain ⟨r, lat⟩ := ob
      cases r with
      | ok d =>
        simp only [pollLoop, h, if_false]
        split
        · simp [pollsOf]
        · exact le_trans (Nat.le_succ polls) (ih _ _ _ _)
      | err c =>
        simp only [pollLoop, h, if_false]
        split
        · simp [pollsOf]
        · exact le_trans (Nat.le_succ polls) (ih _ _ _ _)

/-- Once the wall-clock budget is exceeded within a prefix of the script
none of whose responses reports `COMPLETED`, the loop breaks with the
timed-out outcome, whatever comes later. -/
theorem pollLoop_timedOut_of_cost (timeout interval : Nat) :
    ∀ (pre suf : List TickObs) (s : String) (gen : List String) (t polls : Nat),
      pre ≠ [] → s ≠ "COMPLETED" →
      (∀ ob ∈ pre, isCompletedTick ob = false) →
      timeout < t + scriptCost interval pre →
      ∃ p tf ls, pollLoop timeout interval s gen t polls (pre ++ suf) =
        PollOutcome.timedOut p tf ls := by
  intro pre
  induction pre with
  | nil =>
    intro suf s gen t polls hne
    exact absurd rfl hne
  | cons ob rest ih =>
    intro suf s gen t polls _ hs hnc hcost
    obtain ⟨r, lat⟩ := ob
    cases r with
    | ok d =>
      by_cases hlt : timeout < t + interval + lat
      · exact ⟨polls + 1, t + interval + lat, d.status, by simp [pollLoop, hs, hlt]⟩
      · have hds : d.status ≠ "COMPLETED" := by
          have hmem := hnc ⟨.ok d, lat⟩ (List.mem_cons_self _ _)
          simpa [isCompletedTick] using hmem
        have hrest : rest ≠ [] := by
          rintro rfl
          rw [scriptCost_cons, scriptCost_nil] at hcost
          simp [tickCost] at hcost
          omega
        have hcost' : timeout < (t + interval + lat) + scriptCost interval rest := by
          rw [scriptCost_cons] at hcost
          simp [tickCost] at hcost
          omega
        obtain ⟨p, tf, ls, h⟩ := ih suf d.status d.generated (t + interval + lat) (polls + 1)
          hrest hds (fun x hx => hnc x (List.mem_cons_of_mem _ hx)) hcost'
        refine ⟨p, tf, ls, ?_⟩
        simpa [pollLoop, hs, hlt] using h
    | err c =>
      by_cases hlt : timeout < t + interval + lat + interval
      · exact ⟨polls + 1, t + interval + lat + interval, s, by simp [pollLoop, hs, hlt]⟩
      · have hrest : rest ≠ [] := by
          rintro rfl
          rw [scriptCost_cons, scriptCost_nil] at hcost
          simp [tickCost] at hcost
          omega
        have hcost' : timeout < (t + interval + lat + interval) + scriptCost interval rest := by
          rw [scriptCost_cons] at hcost
          simp [tickCost] at hcost
          omega
        obtain ⟨p, tf, ls, h⟩ := ih suf s gen (t + interval + lat + interval) (polls + 1)
          hrest hs (fun x hx => hnc x (List.mem_cons_of_mem _ hx)) hcost'
        refine ⟨p, tf, ls, ?_⟩
        simpa [pollLoop, hs, hlt] using h

/-- C1: if wall-clock time since submission exceeds `timeout` across a span
of poll ticks none of which reports the terminal-success status
`COMPLETED`, the run ends as `timedOut` (`generation_ok = False`),
regardless of the last observed status, and no artifact file is written. -/
theorem claim1_timeout_no_artifact (timeout interval : Nat) (sub : HttpResponse TaskData)
    (d : TaskData) (subLat : Nat) (pre suf : List TickObs) (dl : Download)
    (sel : List String → Option String)
    (hcode : sub.statusCode = 200) (hbody : sub.body = some d)
    (hstat : d.status ≠ "COMPLETED") (hne : pre ≠ [])
    (hnc : ∀ ob ∈ pre, isCompletedTick ob = false)
    (hcost : timeout < subLat + scriptCost interval pre) :
    runScript timeout interval sub subLat (pre ++ suf) dl sel = .timedOut ∧
    ∀ c, runScript timeout interval sub subLat (pre ++ suf) dl sel ≠ .fileWritten c := by
  obtain ⟨p, tf, ls, h⟩ :=
    pollLoop_timedOut_of_cost timeout interval pre suf d.status d.generated subLat 0
      hne hstat hnc hcost
  have hrun : runScript timeout interval sub subLat (pre ++ suf) dl sel = .timedOut := by
    simp [runScript, submit, hcode, hbody, h]
  exact ⟨hrun, fun c => by simp [hrun]⟩

/-- C1 witness: `timeout_seconds = 5`, `interval_seconds = 2`, three
`IN_PROGRESS` poll ticks (elapsed 6 > 5): the run times out after 3 polls
and writes nothing, even though the artifact GET would have succeeded. -/
theorem claim1_witness :
    runScript 5 2 ⟨200, some ⟨"abc123", "IN_PROGRESS", []⟩⟩ 0
      ([⟨.ok ⟨"IN_PROGRESS", []⟩, 0⟩, ⟨.ok ⟨"IN_PROGRESS", []⟩, 0⟩,
        ⟨.ok ⟨"IN_PROGRESS", []⟩, 0⟩] ++ []) ⟨200, [7]⟩ selectImgUrl = .timedOut :=
  (claim1_timeout_no_artifact 5 2 ⟨200, some ⟨"abc123", "IN_PROGRESS", []⟩⟩
    ⟨"abc123", "IN_PROGRESS", []⟩ 0
    [⟨.ok ⟨"IN_PROGRESS", []⟩, 0⟩, ⟨.ok ⟨"IN_PROGRESS", []⟩, 0⟩,
      ⟨.ok ⟨"IN_PROGRESS", []⟩, 0⟩] [] ⟨200, [7]⟩ selectImgUrl
    rfl rfl (by decide) (by decide) (by decide) (by decide)).1

/-- C2: when the submit response already carries status `COMPLETED`, the
`while` loop is skipped whatever the environment would have answered: the
poll counter stays put (zero status GETs), no time passes, and the run
moves straight to the fetch phase on the submit response's url list. -/
theorem claim2_zero_polls (timeout interval : Nat) (tid : String) (gen : List String)
    (subLat polls : Nat) (script : List TickObs) (dl : Download)
    (sel : List String → Option String) :
    pollLoop timeout interval "COMPLETED" gen subLat polls script =
      .completed polls subLat gen ∧
    runScript timeout interval ⟨200, some ⟨tid, "COMPLETED", gen⟩⟩ subLat script dl sel =
      fetchPhase gen dl sel := by
  refine ⟨pollLoop_completed_entry timeout interval gen subLat polls script, ?_⟩
  simp [runScript, submit, pollLoop_completed_entry]

/-- C3 counterexample: a poll tick whose status GET fails at the transport
level consumes two intervals (the loop-top sleep plus the error-branch
sleep) before the next query, while a successful tick consumes one: with
`interval = 2` and zero latency the error tick ends at t = 4, the
successful one at t = 2, so the next query is not issued after the same
fixed delay. -/
theorem claim3_counterexample :
    pollLoop 100 2 "IN_PROGRESS" [] 0 0 [⟨.err 500, 0⟩] =
      .exhausted 1 4 "IN_PROGRESS" ∧
    pollLoop 100 2 "IN_PROGRESS" [] 0 0 [⟨.ok ⟨"IN_PROGRESS", []⟩, 0⟩] =
      .exhausted 1 2 "IN_PROGRESS" ∧
    (4 : Nat) ≠ 2 := by
  refine ⟨?_, ?_, by decide⟩ <;> rfl

/-- C3 amended: any number of consecutive transport-failed status queries
leaves the current status (and url list) unchanged and does not abort the
loop while the wall-clock budget remains — but each failed tick costs two
polling intervals plus its latency, not one, because the error branch
sleeps a second time. -/
theorem claim3_transient_errors_tolerated (timeout interval : Nat) :
    ∀ (script : List TickObs) (s : String) (gen : List String) (t polls : Nat),
      (∀ ob ∈ script, isErrTick ob = true) → s ≠ "COMPLETED" →
      t + scriptCost interval script ≤ timeout →
      pollLoop timeout interval s gen t polls script =
        .exhausted (polls + script.length) (t + scriptCost interval script) s := by
  intro script
  induction script with
  | nil =>
    intro s gen t polls _ hs _
    simp [pollLoop, hs, scriptCost_nil]
  | cons ob rest ih =>
    intro s gen t polls herr hs hbudget
    obtain ⟨r, lat⟩ := ob
    cases r with
    | ok d =>
      have := herr ⟨.ok d, lat⟩ (List.mem_cons_self _ _)
      simp [isErrTick] at this
    | err c =>
      rw [scriptCost_cons] at hbudget
      simp only [tickCost] at hbudget
      have hlt : ¬ timeout < t + interval + lat + interval := by omega
      have hrec := ih s gen (t + interval + lat + interval) (polls + 1)
        (fun x hx => herr x (List.mem_cons_of_mem _ hx)) hs (by omega)
      have hstep : pollLoop timeout interval s gen t polls (⟨.err c, lat⟩ :: rest) =
          pollLoop timeout interval s gen (t + interval + lat + interval) (polls + 1) rest := by
        simp [pollLoop, hs, hlt]
      rw [hstep, hrec, scriptCost_cons]
      simp only [tickCost, PollOutcome.exhausted.injEq, List.length_cons,
        eq_self_iff_true, and_true]
      omega

/-- C3 amended witness: three consecutive transport errors with budget to
spare: status unchanged, three polls issued, 12 seconds consumed (4 per
failed tick at `interval = 2`). -/
theorem claim3_witness :
    pollLoop 300 2 "IN_PROGRESS" [] 0 0
      [⟨.err 500, 0⟩, ⟨.err 502, 0⟩, ⟨.err 503, 0⟩] =
      .exhausted 3 12 "IN_PROGRESS" := by
  have h := claim3_transient_errors_tolerated 300 2
    [⟨.err 500, 0⟩, ⟨.err 502, 0⟩, ⟨.err 503, 0⟩] "IN_PROGRESS" [] 0 0
    (by decide) (by decide) (by decide)
  simpa using h

/-- C4 counterexample: after a poll tick returns the provider-failure
status `FAILED`, the loop does not stop — it issues a further status query
(two polls consumed here) and is still polling, because the only terminal
comparison in the source is against the string `COMPLETED`. -/
theorem claim4_counterexample :
    pollLoop 100 2 "IN_PROGRESS" [] 0 0
      [⟨.ok ⟨"FAILED", []⟩, 0⟩, ⟨.ok ⟨"IN_PROGRESS", []⟩, 0⟩] =
      .exhausted 2 4 "IN_PROGRESS" := by
  rfl

/-- C4 amended: the loop treats `FAILED` like any other non-`COMPLETED`
status: with budget remaining, a tick observed from status `FAILED` simply
continues the loop with the newly returned status, rather than returning
failure immediately; only `COMPLETED` or the timeout ends polling. -/
theorem claim4_failed_not_terminal (timeout interval : Nat) (gen : List String)
    (t polls lat : Nat) (d : StatusData) (rest : List TickObs)
    (hbudget : t + interval + lat ≤ timeout) :
    pollLoop timeout interval "FAILED" gen t polls (⟨.ok d, lat⟩ :: rest) =
      pollLoop timeout interval d.status d.generated (t + interval + lat) (polls + 1) rest := by
  have hlt : ¬ timeout < t + interval + lat := by omega
  simp [pollLoop, hlt]

/-- C4 amended witness: from status `FAILED` with budget remaining, the
next tick is consumed and the loop goes on from the returned status. -/
theorem claim4_witness :
    pollLoop 100 2 "FAILED" [] 0 0 [⟨.ok ⟨"IN_PROGRESS", []⟩, 0⟩] =
      pollLoop 100 2 "IN_PROGRESS" [] 2 1 [] :=
  claim4_failed_not_terminal 100 2 [] 0 0 0 ⟨"IN_PROGRESS", []⟩ [] (by decide)

/-- C5 counterexample: `1_gen_video.py` applies no scheme filter: on a
result list whose only entry is not `https://`-prefixed, its selection
(`generated[0]`) still picks that entry and the fetch phase writes a file
instead of failing with a no-valid-result error. -/
theorem claim5_counterexample :
    selectVideoUrl ["http://x/y.mp4"] = some "http://x/y.mp4" ∧
    startsWithHttps "http://x/y.mp4" = false ∧
    fetchPhase ["http://x/y.mp4"] ⟨200, [7]⟩ selectVideoUrl = .fileWritten [7] := by
  refine ⟨rfl, by decide, rfl⟩

/-- C5 amended: `1_edit_image.py` selects the first `https://`-prefixed
entry of the result list and, when none matches, hits an uncaught
`IndexError` with no file written; `1_gen_video.py` selects the first
entry unconditionally, crashing (again with no file written) only when the
list is empty. -/
theorem claim5_url_selection (gen : List String) (dl : Download) :
    (selectImgUrl gen = none ↔ ∀ u ∈ gen, startsWithHttps u = false) ∧
    (∀ u, selectImgUrl gen = some u → u ∈ gen ∧ startsWithHttps u = true) ∧
    (selectVideoUrl gen = none ↔ gen = []) ∧
    (selectImgUrl gen = none →
      fetchPhase gen dl selectImgUrl = .noValidUrl ∧
      ∀ c, fetchPhase gen dl selectImgUrl ≠ .fileWritten c) ∧
    (selectVideoUrl gen = none →
      fetchPhase gen dl selectVideoUrl = .noValidUrl ∧
      ∀ c, fetchPhase gen dl selectVideoUrl ≠ .fileWritten c) := by
  refine ⟨?_, ?_, ?_, ?_, ?_⟩
  · unfold selectImgUrl
    rw [List.head?_eq_none_iff, List.filter_eq_nil_iff]
    simp
  · intro u hu
    have hmem : u ∈ gen.filter startsWithHttps :=
      List.mem_of_mem_head? (Option.mem_def.mpr hu)
    exact List.mem_filter.mp hmem
  · unfold selectVideoUrl
    rw [List.head?_eq_none_iff]
  · intro hnone
    refine ⟨by simp [fetchPhase, hnone], fun c => by simp [fetchPhase, hnone]⟩
  · intro hnone
    refine ⟨by simp [fetchPhase, hnone], fun c => by simp [fetchPhase, hnone]⟩

/-- C5 amended witness: a result list with no `https://` entry makes the
image script's fetch phase crash with no file written. -/
theorem claim5_witness :
    fetchPhase ["ftp://a"] ⟨200, [1]⟩ selectImgUrl = .noValidUrl :=
  ((claim5_url_selection ["ftp://a"] ⟨200, [1]⟩).2.2.2.1 (by rfl)).1

/-- When the transport-level submit failure carries a printable message —
or submission succeeded — the refined run agrees with `runScript`; the two
differ only on the non-200 unusable-error-body path. -/
theorem runScriptFull_eq_runScript (timeout interval : Nat) (sub : HttpResponse TaskData)
    (m : String) (subLat : Nat) (script : List TickObs) (dl : Download)
    (sel : List String → Option String) :
    runScriptFull timeout interval sub (some m) subLat script dl sel =
      runScript timeout interval sub subLat script dl sel := by
  cases hs : submit sub with
  | error e => cases e <;> simp [runScriptFull, runScript, hs]
  | ok job => simp [runScriptFull, runScript, hs]

/-- C6 counterexample: a run that times out — an unrecoverable failure —
still exits with process status 0, because the scripts only print the
error and fall off the end; the claim's non-zero exit does not hold. -/
theorem claim6_counterexample :
    runScriptFull 5 2 ⟨200, some ⟨"abc", "IN_PROGRESS", []⟩⟩ (some "err") 0
      [⟨.ok ⟨"IN_PROGRESS", []⟩, 0⟩, ⟨.ok ⟨"IN_PROGRESS", []⟩, 0⟩,
        ⟨.ok ⟨"IN_PROGRESS", []⟩, 0⟩] ⟨200, [9]⟩ selectImgUrl = .timedOut ∧
    exitCode .timedOut = 0 := by
  exact ⟨rfl, rfl⟩

/-- C6 amended: timeout, failed artifact download, and failed submission
whose error body yields a printable message each print a descriptive error
yet exit with status 0, exactly like the success path (which writes the
one artifact file); the process exits non-zero only via the uncaught
exceptions — a non-200 submit response whose body is not JSON or lacks
`message` (the print at `1_edit_image.py:68` / `1_gen_video.py:72` raises
while building its f-string), a 200 body without the expected fields, or
no selectable result url. -/
theorem claim6_exit_status (timeout interval : Nat) (sub : HttpResponse TaskData)
    (errMessage : Option String) (subLat : Nat) (script : List TickObs) (dl : Download)
    (sel : List String → Option String) :
    (runScriptFull timeout interval sub errMessage subLat script dl sel = .timedOut →
      exitCode (runScriptFull timeout interval sub errMessage subLat script dl sel) = 0) ∧
    (∀ c, runScriptFull timeout interval sub errMessage subLat script dl sel = .submitFailed c →
      exitCode (runScriptFull timeout interval sub errMessage subLat script dl sel) = 0) ∧
    (∀ c, runScriptFull timeout interval sub errMessage subLat script dl sel = .downloadFailed c →
      exitCode (runScriptFull timeout interval sub errMessage subLat script dl sel) = 0) ∧
    (∀ c, runScriptFull timeout interval sub errMessage subLat script dl sel = .fileWritten c →
      exitCode (runScriptFull timeout interval sub errMessage subLat script dl sel) = 0) ∧
    (sub.statusCode ≠ 200 → errMessage = none →
      runScriptFull timeout interval sub errMessage subLat script dl sel = .submitMsgCrash ∧
      exitCode (runScriptFull timeout interval sub errMessage subLat script dl sel) ≠ 0) ∧
    (runScriptFull timeout interval sub errMessage subLat script dl sel = .parseCrash →
      exitCode (runScriptFull timeout interval sub errMessage subLat script dl sel) ≠ 0) ∧
    (runScriptFull timeout interval sub errMessage subLat script dl sel = .noValidUrl →
      exitCode (runScriptFull timeout interval sub errMessage subLat script dl sel) ≠ 0) := by
  refine ⟨fun h => by rw [h]; rfl, fun c h => by rw [h]; rfl, fun c h => by rw [h]; rfl,
    fun c h => by rw [h]; rfl, ?_, fun h => by rw [h]; decide, fun h => by rw [h]; decide⟩
  intro hcode hmsg
  have hcrash : runScriptFull timeout interval sub errMessage subLat script dl sel =
      .submitMsgCrash := by
    simp [runScriptFull, submit, hcode, hmsg]
  exact ⟨hcrash, by rw [hcrash]; decide⟩

/-- C6 amended witness: the timed-out run of the counterexample scenario
exits with status 0, while a 502 submission whose error body is not JSON
crashes and exits non-zero — both obtained through the amended theorem. -/
theorem claim6_witness :
    exitCode (runScriptFull 5 2 ⟨200, some ⟨"abc", "IN_PROGRESS", []⟩⟩ (some "err") 0
      [⟨.ok ⟨"IN_PROGRESS", []⟩, 0⟩, ⟨.ok ⟨"IN_PROGRESS", []⟩, 0⟩,
        ⟨.ok ⟨"IN_PROGRESS", []⟩, 0⟩] ⟨200, [9]⟩ selectImgUrl) = 0 ∧
    runScriptFull 5 2 ⟨502, none⟩ none 0 [] ⟨200, [9]⟩ selectImgUrl = .submitMsgCrash ∧
    exitCode (runScriptFull 5 2 ⟨502, none⟩ none 0 [] ⟨200, [9]⟩ selectImgUrl) ≠ 0 := by
  refine ⟨?_, ?_, ?_⟩
  · exact (claim6_exit_status 5 2 ⟨200, some ⟨"abc", "IN_PROGRESS", []⟩⟩ (some "err") 0
      [⟨.ok ⟨"IN_PROGRESS", []⟩, 0⟩, ⟨.ok ⟨"IN_PROGRESS", []⟩, 0⟩,
        ⟨.ok ⟨"IN_PROGRESS", []⟩, 0⟩] ⟨200, [9]⟩ selectImgUrl).1 (by rfl)
  · exact ((claim6_exit_status 5 2 ⟨502, none⟩ none 0 [] ⟨200, [9]⟩
      selectImgUrl).2.2.2.2.1 (by decide) rfl).1
  · exact ((claim6_exit_status 5 2 ⟨502, none⟩ none 0 [] ⟨200, [9]⟩
      selectImgUrl).2.2.2.2.1 (by decide) rfl).2

/-- C7 counterexample: an HTTP-200 submit response whose body parses but
carries an empty `task_id` yields a `Job` whose id is empty, so "a `Job`
with a non-empty id iff transport success and the body parses" fails in
the left-to-right direction at this input: the code never validates
non-emptiness. -/
theorem claim7_counterexample :
    ¬ ((∃ j, submit ⟨200, some ⟨"", "IN_PROGRESS", []⟩⟩ = .ok j ∧ j.id ≠ "") ↔
      ((⟨200, some ⟨"", "IN_PROGRESS", []⟩⟩ : HttpResponse TaskData).statusCode = 200 ∧
        (⟨200, some ⟨"", "IN_PROGRESS", []⟩⟩ : HttpResponse TaskData).body.isSome = true)) := by
  intro h
  obtain ⟨j, hj, hne⟩ := h.mpr ⟨rfl, rfl⟩
  have hs : submit ⟨200, some ⟨"", "IN_PROGRESS", []⟩⟩ =
      .ok (⟨"", "IN_PROGRESS", []⟩ : Job) := rfl
  rw [hs] at hj
  injection hj with hj'
  subst hj'
  exact hne rfl

/-- C7 amended: `submit` returns a `Job` (of any id) iff the transport
reports 200 and the body parses, and the job then carries the body's
`task_id`, `status` and url list verbatim — non-empty id exactly when the
provider sent one; every non-200 or non-parsing submission yields an
error, not a `Job`. -/
theorem claim7_submit_iff (resp : HttpResponse TaskData) :
    ((∃ j, submit resp = .ok j) ↔ (resp.statusCode = 200 ∧ resp.body.isSome = true)) ∧
    (∀ d, resp.statusCode = 200 → resp.body = some d →
      submit resp = .ok ⟨d.task_id, d.status, d.generated⟩) := by
  constructor
  · constructor
    · rintro ⟨j, hj⟩
      by_cases h : resp.statusCode = 200
      · cases hb : resp.body with
        | none => simp [submit, h, hb] at hj
        | some d => exact ⟨h, by simp [hb]⟩
      · simp [submit, h] at hj
    · rintro ⟨h1, h2⟩
      cases hb : resp.body with
      | none => simp [hb] at h2
      | some d => exact ⟨⟨d.task_id, d.status, d.generated⟩, by simp [submit, h1, hb]⟩
  · intro d h1 h2
    simp [submit, h1, h2]

/-- C7 amended witness: a 200 response with a parsed body produces exactly
the job described by the body. -/
theorem claim7_witness :
    submit ⟨200, some ⟨"abc123", "IN_PROGRESS", []⟩⟩ =
      .ok ⟨"abc123", "IN_PROGRESS", []⟩ :=
  (claim7_submit_iff ⟨200, some ⟨"abc123", "IN_PROGRESS", []⟩⟩).2
    ⟨"abc123", "IN_PROGRESS", []⟩ rfl rfl

/-- C8 counterexample: a 200 artifact download with empty content is
written as a zero-length file and reported as a success — the
"content length > 0 on success" invariant is not enforced by the code. -/
theorem claim8_counterexample :
    fetchPhase ["https://x/y.jpg"] ⟨200, []⟩ selectImgUrl = .fileWritten [] ∧
    ([] : List Nat).length = 0 := by
  exact ⟨rfl, rfl⟩

/-- C8 amended: once a url is selected, a 200 download writes exactly the
full response content in a single write (so a failed fetch leaves no
partial file: a non-200 download writes nothing at all) — but the content
written may be empty, since no length check exists. -/
theorem claim8_write_all_or_nothing (gen : List String) (url : String) (dl : Download)
    (sel : List String → Option String) (hsel : sel gen = some url) :
    (dl.statusCode = 200 → fetchPhase gen dl sel = .fileWritten dl.content) ∧
    (dl.statusCode ≠ 200 →
      fetchPhase gen dl sel = .downloadFailed dl.statusCode ∧
      ∀ c, fetchPhase gen dl sel ≠ .fileWritten c) := by
  constructor
  · intro h200
    simp [fetchPhase, hsel, h200]
  · intro hne
    refine ⟨by simp [fetchPhase, hsel, hne], fun c => by simp [fetchPhase, hsel, hne]⟩

/-- C8 amended witness: a failed (404) download writes nothing. -/
theorem claim8_witness :
    fetchPhase ["https://x/y.jpg"] ⟨404, [1, 2]⟩ selectImgUrl = .downloadFailed 404 :=
  ((claim8_write_all_or_nothing ["https://x/y.jpg"] "https://x/y.jpg" ⟨404, [1, 2]⟩
    selectImgUrl (by rfl)).2 (by decide)).1

/-- C9 counterexample: with submit status `IN_PROGRESS` and poll responses
`IN_PROGRESS`, `IN_PROGRESS`, `COMPLETED`, the loop issues three status
GETs — one per response consumed — not the two the claim expects. -/
theorem claim9_counterexample :
    pollLoop 300 2 "IN_PROGRESS" [] 0 0
      [⟨.ok ⟨"IN_PROGRESS", []⟩, 0⟩, ⟨.ok ⟨"IN_PROGRESS", []⟩, 0⟩,
        ⟨.ok ⟨"COMPLETED", ["https://x/y.jpg"]⟩, 0⟩] =
      .completed 3 6 ["https://x/y.jpg"] ∧
    (3 : Nat) ≠ 2 := by
  exact ⟨rfl, by decide⟩

/-- C9 amended: in that scenario the poller performs exactly 3 status
queries, returns success with the `COMPLETED` response's url list, and the
run writes an artifact of positive length when the download succeeds with
non-empty content. -/
theorem claim9_scenario :
    pollLoop 300 2 "IN_PROGRESS" [] 0 0
      [⟨.ok ⟨"IN_PROGRESS", []⟩, 0⟩, ⟨.ok ⟨"IN_PROGRESS", []⟩, 0⟩,
        ⟨.ok ⟨"COMPLETED", ["https://x/y.jpg"]⟩, 0⟩] =
      .completed 3 6 ["https://x/y.jpg"] ∧
    runScript 300 2 ⟨200, some ⟨"abc123", "IN_PROGRESS", []⟩⟩ 0
      [⟨.ok ⟨"IN_PROGRESS", []⟩, 0⟩, ⟨.ok ⟨"IN_PROGRESS", []⟩, 0⟩,
        ⟨.ok ⟨"COMPLETED", ["https://x/y.jpg"]⟩, 0⟩] ⟨200, [104, 105]⟩ selectImgUrl =
      .fileWritten [104, 105] ∧
    0 < ([104, 105] : List Nat).length := by
  exact ⟨rfl, rfl, by decide⟩

/-- C10 counterexample: the claimed overshoot bound of one interval plus
one request's latency fails when the budget-crossing tick's status query
errors at the transport level: with `timeout = 5`, `interval = 2` and a
final error tick of latency 1, the run ends at t = 9, past
`timeout + interval + latency = 8`, because the error branch sleeps a
second interval before the timeout check. -/
theorem claim10_counterexample :
    pollLoop 5 2 "IN_PROGRESS" [] 0 0
      [⟨.ok ⟨"IN_PROGRESS", []⟩, 0⟩, ⟨.ok ⟨"IN_PROGRESS", []⟩, 0⟩, ⟨.err 500, 1⟩] =
      .timedOut 3 9 "IN_PROGRESS" ∧
    5 + 2 + 1 < 9 := by
  exact ⟨rfl, by decide⟩

/-- C10 amended: when the loop is entered with a non-terminal status, a
full tick — the `sleep(interval)` and one status GET, plus the extra
error-branch sleep on transport failure — runs before the timeout
condition is first evaluated: even with the budget already exceeded at
entry, exactly one more query is issued and the loop only then times out,
at `t + interval + latency` on an ok tick but at
`t + interval + latency + interval` on an error tick (one interval beyond
the claimed bound); and on any tick at least one query is always
issued. -/
theorem claim10_tick_before_timeout_check (timeout interval : Nat) (s : String)
    (gen : List String) (t polls lat code : Nat) (d : StatusData)
    (rest rest' : List TickObs) (ob : TickObs)
    (hs : s ≠ "COMPLETED") (ht : timeout < t) :
    pollLoop timeout interval s gen t polls (⟨.ok d, lat⟩ :: rest) =
      .timedOut (polls + 1) (t + interval + lat) d.status ∧
    pollLoop timeout interval s gen t polls (⟨.err code, lat⟩ :: rest) =
      .timedOut (polls + 1) (t + interval + lat + interval) s ∧
    polls + 1 ≤ pollsOf (pollLoop timeout interval s gen t polls (ob :: rest')) := by
  have h1 : timeout < t + interval + lat := by omega
  have h2 : timeout < t + interval + lat + interval := by omega
  refine ⟨by simp [pollLoop, hs, h1], by simp [pollLoop, hs, h2], ?_⟩
  obtain ⟨r, l⟩ := ob
  cases r with
  | ok d' =>
    simp only [pollLoop, hs, if_false]
    split
    · simp [pollsOf]
    · exact pollsOf_pollLoop_ge timeout interval rest' d'.status d'.generated _ (polls + 1)
  | err c =>
    simp only [pollLoop, hs, if_false]
    split
    · simp [pollsOf]
    · exact pollsOf_pollLoop_ge timeout interval rest' s gen _ (polls + 1)

/-- C10 witness: budget already exceeded at loop entry (t = 10 > 5): one
tick still runs, timing out at 13 on an ok tick and 15 on an error tick,
and at least one query is issued. -/
theorem claim10_witness :
    pollLoop 5 2 "IN_PROGRESS" [] 10 0 [⟨.ok ⟨"PENDING", []⟩, 1⟩] =
      .timedOut 1 13 "PENDING" ∧
    pollLoop 5 2 "IN_PROGRESS" [] 10 0 [⟨.err 500, 1⟩] =
      .timedOut 1 15 "IN_PROGRESS" ∧
    0 + 1 ≤ pollsOf (pollLoop 5 2 "IN_PROGRESS" [] 10 0 [⟨.ok ⟨"PENDING", []⟩, 0⟩]) := by
  have h := claim10_tick_before_timeout_check 5 2 "IN_PROGRESS" [] 10 0 1 500
    ⟨"PENDING", []⟩ [] [] ⟨.ok ⟨"PENDING", []⟩, 0⟩ (by decide) (by decide)
  exact ⟨h.1, h.2.1, h.2.2⟩

end VirtuosoAI
